import Mathlib

/-!
# Verification of the objection.js ambient type declarations

A shallow embedding of `typings/objection/index.d.ts` (the ambient type
declarations for the objection.js ORM) together with the usage-example file
that exercises them.  The repository contains no executable library code:
its observable content is the set of declared constructs and the type-level
functions they induce (generic member lookups, conditional types, overload
resolution).  We embed:

* the finite universe of query-builder types that the declarations and the
  example give rise to (`QBTy`): a builder class (`QueryBuilder` or the
  example's `CustomQueryBuilder`), a model class, and a result type;
* the type-level member functions `ArrayQueryBuilderType`,
  `SingleQueryBuilderType`, `NumberQueryBuilderType`, `PageQueryBuilderType`
  (index.d.ts lines 732-735, overridden at example lines 1031-1033),
  `DeriveQBType` (lines 240-245), the conditional types of `FirstMethod`
  (lines 373-377) and `ReturningMethod` (lines 441-448), and the heritage
  clause `QueryBuilder<M, R> extends Promise<R>` (line 574);
* tables of the declared constructs of both files and of the instance
  members of the `QueryBuilder` class, carrying the syntactic facts the
  specification speaks about (declaration kind, presence of an executable
  body, extends-parent, receiver polymorphism, return-type shape).
-/

set_option maxRecDepth 8192

namespace Objection

/-- The model classes that occur in the repository: the library's base class
`Model` (index.d.ts line 957) and the example file's `BaseModel`, `Animal`
and `Person` (example lines 1040-1053). -/
inductive ModelName where
  | Model
  | BaseModel
  | Animal
  | Person
deriving DecidableEq, Fintype, Repr

/-- The query-builder classes that occur in the repository: the declared
`QueryBuilder` (index.d.ts line 574) and the example file's
`CustomQueryBuilder` (example line 1030), which extends it. -/
inductive BuilderClass where
  | QueryBuilder
  | CustomQueryBuilder
deriving DecidableEq, Fintype, Repr

/-- The result types `R` with which `QueryBuilder<M, R>` is instantiated by
the declarations themselves: `M[]` (the default, line 574, and
`ArrayQueryBuilderType`, line 732), the single model `M`
(`SingleQueryBuilderType`, line 733), `number` (`NumberQueryBuilderType`,
line 734) and `Page<M>` (`PageQueryBuilderType`, line 735). -/
inductive ResTy where
  | arrOf (m : ModelName)
  | instanceOf (m : ModelName)
  | numberTy
  | pageOf (m : ModelName)
deriving DecidableEq, Fintype, Repr

/-- A query-builder type as it appears to the type checker: the builder
class, the model type parameter `M` and the result type parameter `R`. -/
structure QBTy where
  cls : BuilderClass
  mdl : ModelName
  res : ResTy
deriving DecidableEq, Fintype, Repr

/-- `ModelType` member / type alias (index.d.ts lines 187, 727). -/
def QBTy.ModelType (qb : QBTy) : ModelName := qb.mdl

/-- `ResultType` member / type alias (index.d.ts lines 192, 728). -/
def QBTy.ResultType (qb : QBTy) : ResTy := qb.res

/-- `ArrayQueryBuilderType` member: declared as `QueryBuilder<M, M[]>` at
index.d.ts line 732 and overridden as `CustomQueryBuilder<M, M[]>` at
example line 1031. -/
def QBTy.ArrayQueryBuilderType : QBTy → QBTy
  | ⟨.QueryBuilder, m, _⟩ => ⟨.QueryBuilder, m, .arrOf m⟩
  | ⟨.CustomQueryBuilder, m, _⟩ => ⟨.CustomQueryBuilder, m, .arrOf m⟩

/-- `SingleQueryBuilderType` member: `QueryBuilder<M, M>` at line 733,
overridden as `CustomQueryBuilder<M, M>` at example line 1032. -/
def QBTy.SingleQueryBuilderType : QBTy → QBTy
  | ⟨.QueryBuilder, m, _⟩ => ⟨.QueryBuilder, m, .instanceOf m⟩
  | ⟨.CustomQueryBuilder, m, _⟩ => ⟨.CustomQueryBuilder, m, .instanceOf m⟩

/-- `NumberQueryBuilderType` member: `QueryBuilder<M, number>` at line 734,
overridden as `CustomQueryBuilder<M, number>` at example line 1033. -/
def QBTy.NumberQueryBuilderType : QBTy → QBTy
  | ⟨.QueryBuilder, m, _⟩ => ⟨.QueryBuilder, m, .numberTy⟩
  | ⟨.CustomQueryBuilder, m, _⟩ => ⟨.CustomQueryBuilder, m, .numberTy⟩

/-- `PageQueryBuilderType` member: `QueryBuilder<M, Page<M>>` at line 735.
`CustomQueryBuilder` overrides only the array, single and number members
(example lines 1031-1033), so this member is inherited unchanged and names
the plain `QueryBuilder` class for both builder classes. -/
def QBTy.PageQueryBuilderType : QBTy → QBTy
  | ⟨_, m, _⟩ => ⟨.QueryBuilder, m, .pageOf m⟩

/-- The string-literal union `QBType = 'Array' | 'Single' | 'Number' |
'Page'` (index.d.ts line 31). -/
inductive QBType where
  | Array
  | Single
  | Number
  | Page
deriving DecidableEq, Fintype, Repr

/-- The conditional type `DeriveQBType<QB, Type>` (index.d.ts lines
240-245): selects the corresponding `...QueryBuilderType` member of `QB`. -/
def DeriveQBType (qb : QBTy) : QBType → QBTy
  | .Array => qb.ArrayQueryBuilderType
  | .Single => qb.SingleQueryBuilderType
  | .Number => qb.NumberQueryBuilderType
  | .Page => qb.PageQueryBuilderType

/-- Nominal subclassing between the two builder classes:
`CustomQueryBuilder` extends `QueryBuilder` (example line 1030). -/
def BuilderClass.subclassOf : BuilderClass → BuilderClass → Bool
  | _, .QueryBuilder => true
  | .CustomQueryBuilder, .CustomQueryBuilder => true
  | .QueryBuilder, .CustomQueryBuilder => false

/-- Assignability between builder types, as the TypeScript checker decides
it for these declarations: the mutable property `ResultType: R` (line 728)
makes `QueryBuilder` invariant in `R`, and the property `ModelType: M`
(line 727) makes it invariant in `M`; `CustomQueryBuilder<M, R>` has every
member of `QueryBuilder<M, R>` plus `someCustomMethod`, so it is assignable
to it.  This is the relation the `extends` keyword of the conditional types
at lines 373-377 and 441-448 tests. -/
def QBTy.extendsTy (a b : QBTy) : Bool :=
  a.cls.subclassOf b.cls && a.mdl == b.mdl && a.res == b.res

/-- The conditional return type of `first` (`FirstMethod`, index.d.ts lines
373-377): `QB extends ArrayQueryBuilder<QB> ? SingleQueryBuilder<QB> :
QB`. -/
def first (qb : QBTy) : QBTy :=
  if qb.extendsTy qb.ArrayQueryBuilderType then qb.SingleQueryBuilderType else qb

/-- The conditional return type of `returning` (`ReturningMethod`,
index.d.ts lines 441-448). -/
def returning (qb : QBTy) : QBTy :=
  if qb.extendsTy qb.ArrayQueryBuilderType then qb.ArrayQueryBuilderType
  else if qb.extendsTy qb.NumberQueryBuilderType then qb.ArrayQueryBuilderType
  else qb.SingleQueryBuilderType

/-- The instance property `QueryBuilderType` of each model class: `Model`
declares `QueryBuilderType: QueryBuilder<this>` (index.d.ts line 989) and
the example's `BaseModel` redeclares it as `CustomQueryBuilder<this>`
(example line 1041), inherited by `Animal` and `Person` with `this` the
respective subclass.  The result type parameter defaults to `M[]`
(index.d.ts line 574). -/
def QueryBuilderTypeOf : ModelName → QBTy
  | .Model => ⟨.QueryBuilder, .Model, .arrOf .Model⟩
  | .BaseModel => ⟨.CustomQueryBuilder, .BaseModel, .arrOf .BaseModel⟩
  | .Animal => ⟨.CustomQueryBuilder, .Animal, .arrOf .Animal⟩
  | .Person => ⟨.CustomQueryBuilder, .Person, .arrOf .Person⟩

/-- `Model.query()` (`StaticQueryMethod`, index.d.ts lines 738-740):
returns `InstanceType<M>['QueryBuilderType']`. -/
def query (m : ModelName) : QBTy := QueryBuilderTypeOf m

/-- The super-class of a builder type: `CustomQueryBuilder<M, R> extends
QueryBuilder<M, R>` (example line 1030); `QueryBuilder<M, R> extends
Promise<R>` (index.d.ts line 574), which ends the builder chain. -/
def QBTy.superBuilder : QBTy → Option QBTy
  | ⟨.CustomQueryBuilder, m, r⟩ => some ⟨.QueryBuilder, m, r⟩
  | ⟨.QueryBuilder, _, _⟩ => none

/-- The payload of the `Promise` super-class reached by walking the
heritage chain: a `CustomQueryBuilder` first steps to its `QueryBuilder`
super-class (example line 1030), and `QueryBuilder<M, R> extends
Promise<R>` (index.d.ts line 574), so awaiting any builder type yields the
result type carried at the `QueryBuilder` stage of the chain. -/
def QBTy.promisePayload (qb : QBTy) : ResTy :=
  match qb.superBuilder with
  | some parent => parent.res
  | none => qb.res

/-- Whether a builder type is assignable to `Promise<r>`. -/
def QBTy.assignableToPromiseOf (qb : QBTy) (r : ResTy) : Bool :=
  qb.promisePayload == r

/-- `someCustomMethod` is declared only on the example file's
`CustomQueryBuilder` (example lines 1035-1037) and returns `this`; calling
it type-checks exactly on builder types of that class and leaves the type
unchanged. -/
def someCustomMethod (qb : QBTy) : Option QBTy :=
  if qb.cls == .CustomQueryBuilder then some qb else none

/-- The instance property names declared by the example's model classes
(`Animal`: `id`, `name`, `owner`; `Person`: `firstName`, `pets`; example
lines 1044-1053). -/
inductive PName where
  | id
  | name
  | owner
  | firstName
  | pets
deriving DecidableEq, Fintype, Repr

/-- The property types that occur on the example's model classes. -/
inductive PropTy where
  | numberP
  | stringP
  | modelP (m : ModelName)
  | modelArrP (m : ModelName)
deriving DecidableEq, Fintype, Repr

/-- The declared instance properties of each model class (example lines
1044-1053; `Model` and `BaseModel` declare no data properties besides
`QueryBuilderType`, which is modelled by `QueryBuilderTypeOf`). -/
def modelProp : ModelName → PName → Option PropTy
  | .Animal, .id => some .numberP
  | .Animal, .name => some .stringP
  | .Animal, .owner => some (.modelP .Person)
  | .Person, .firstName => some .stringP
  | .Person, .pets => some (.modelArrP .Animal)
  | _, _ => none

/-- The conditional type `RelatedQueryBuilder<T>` (index.d.ts lines
748-752): for a model-valued property it is
`SingleQueryBuilder<T['QueryBuilderType']>`, for a model-array property it
is the item's `QueryBuilderType`, and `never` otherwise. -/
def RelatedQueryBuilder : PropTy → Option QBTy
  | .modelP m => some (QueryBuilderTypeOf m).SingleQueryBuilderType
  | .modelArrP m => some (QueryBuilderTypeOf m)
  | .numberP => none
  | .stringP => none

/-- `model.$relatedQuery(relationName)` (`RelatedQueryMethod`, first
overload, index.d.ts line 755): `RelatedQueryBuilder<M[K]>`. -/
def relatedQuery (m : ModelName) (k : PName) : Option QBTy :=
  (modelProp m k).bind RelatedQueryBuilder

/-! ## The declared constructs of the two files -/

/-- The names of the constructs declared in the repository: every construct
of the namespace in `typings/objection/index.d.ts`, the declarations of the
example file, and the three externally defined parents that heritage
clauses mention (`Promise`, `Error` and the imported `knex` interface). -/
inductive CName where
  -- ambient consts of the namespace (index.d.ts lines 21-29)
  | raw | lit | ref | compose | mixin | snakeCaseMappers | knexSnakeCaseMappers
  -- type aliases
  | QBType | Raw | Operator | NonPrimitiveValue | ColumnRef | TableRef
  | PrimitiveValue | Value | Id | CompositeId | MaybeCompositeId | Identity
  | AnyQueryBuilder | AnyModelClass | Modifier | OrderByDirection
  | RelationExpression | ItemType | NonFunctionPropertyNames
  | PartialModelObject | GraphParameters | PartialModelGraph | ModelType
  | ResultType | ModelProps | SingleQueryBuilder | ArrayQueryBuilder
  | NumberQueryBuilder | PageQueryBuilder | DeriveQBType | Selection
  | QBOrCallback | RelatedQueryBuilder | ModelClassFactory
  | ModelClassSpecifier | RelationMappingHook | RelationMappingColumnRef
  | ValidationErrorType
  -- interfaces
  | RawBuilder | RawFunction | RawInterface | LiteralBuilder
  | LiteralFunction | ReferenceBuilder | ReferenceFunction | ComposeFunction
  | Plugin | MixinFunction | Aliasable | Castable | ValueObject
  | PrimitiveValueObject | CallbackVoid | Modifiers | ForClassMethod
  | SelectMethod | FromMethod | WhereMethod | WhereWrappedMethod
  | WhereExistsMethod | WhereInMethod | SetOperations | BaseSetOperations
  | UnionMethod | JoinRelationOptions | JoinRelationMethod | JoinMethod
  | IncrementDecrementMethod | OrderByMethod | FindByIdMethod
  | FindByIdsMethod | FirstMethod | CastToMethod | UpdateMethod
  | UpdateAndFetchMethod | UpdateAndFetchByIdMethod | DeleteMethod
  | DeleteByIdMethod | InsertMethod | EagerMethod | AllowGraphMethod
  | IdentityMethod | OneArgMethod | StringReturningMethod
  | BooleanReturningMethod | TableRefForMethod | ModelClassMethod
  | ReturningMethod | Page | PageMethod | RangeMethod | RunBeforeCallback
  | RunBeforeMethod | RunAfterCallback | RunAfterMethod | OnBuildMethod
  | OnBuildKnexCallback | OnBuildKnexMethod | OnErrorCallback
  | OnErrorMethod | InsertGraphOptions | InsertGraphMethod
  | UpsertGraphOptions | UpsertGraphMethod | EagerAlgorithm
  | EagerAlgorithmMethod | EagerOptions | EagerOptionsMethod
  | ModifyEagerMethod | ContextMethod | Pojo | StaticQueryMethod
  | QueryMethod | RelatedQueryMethod | LoadRelatedMethod
  | StaticLoadRelatedMethod | IdMethod | Transaction | RelationMappings
  | RelationMapping | RelationJoin | RelationThrough | Relation
  | QueryContext | ModelOptions | CloneOptions | ToJsonOptions
  | ValidatorContext | ValidatorArgs | AjvConfig | SnakeCaseMappersOptions
  | ColumnNameMappers | SnakeCaseMappersFactory | KnexMappers
  | KnexSnakeCaseMappersFactory | ValidationErrorItem | ErrorHash
  | CreateValidationErrorArgs | TableMetadata | TableMetadataOptions
  | FetchTableMetadataOptions | BindKnexMethod | FromJsonMethod
  -- ambient classes
  | QueryBuilder | Validator | AjvValidator | ValidationError | Model
  -- example-file declarations
  | CustomQueryBuilder | BaseModel | Animal | Person | someCustomMethod
  | people | pets | numUpdated
  -- externally defined parents referenced by heritage clauses
  | PromiseBuiltin | ErrorBuiltin | knexInterface
deriving DecidableEq, Fintype, Repr

/-- The syntactic kind of a declared construct. -/
inductive DeclKind where
  /-- `type X = ...` inside the ambient namespace. -/
  | typeAlias
  /-- `interface X { ... }` inside the ambient namespace. -/
  | interfaceDecl
  /-- an ambient `class` declaration (member signatures only, no bodies). -/
  | classShape
  /-- an ambient `const x: T;` declaration (no initializer). -/
  | ambientConst
  /-- a class in the example `.ts` file (a runtime class value). -/
  | classImpl
  /-- a method with an executable body in the example `.ts` file. -/
  | methodImpl
  /-- a `const x: T = expr` binding in the example `.ts` file. -/
  | constBinding
deriving DecidableEq, Fintype, Repr

/-- One declared construct: its name, kind, whether it (or any member it
contains) carries executable code, and the parent named by its
`extends` clause, if any. -/
structure SourceDecl where
  name : CName
  kind : DeclKind
  hasExecutableBody : Bool
  extendsParent : Option CName
deriving DecidableEq, Repr

/-- Every construct declared inside `declare namespace Objection` in
`typings/objection/index.d.ts`, in source order, with its kind, whether it
carries executable code (none does: the file is ambient), and the parent
named by its `extends` clause. -/
def declFileConstructs1 : List SourceDecl := [
  ⟨.raw, .ambientConst, false, none⟩,
  ⟨.lit, .ambientConst, false, none⟩,
  ⟨.ref, .ambientConst, false, none⟩,
  ⟨.compose, .ambientConst, false, none⟩,
  ⟨.mixin, .ambientConst, false, none⟩,
  ⟨.snakeCaseMappers, .ambientConst, false, none⟩,
  ⟨.knexSnakeCaseMappers, .ambientConst, false, none⟩,
  ⟨.QBType, .typeAlias, false, none⟩,
  ⟨.RawBuilder, .interfaceDecl, false, some .Aliasable⟩,
  ⟨.RawFunction, .interfaceDecl, false, some .RawInterface⟩,
  ⟨.RawInterface, .interfaceDecl, false, none⟩,
  ⟨.LiteralBuilder, .interfaceDecl, false, some .Castable⟩,
  ⟨.LiteralFunction, .interfaceDecl, false, none⟩,
  ⟨.ReferenceBuilder, .interfaceDecl, false, some .Castable⟩,
  ⟨.ReferenceFunction, .interfaceDecl, false, none⟩,
  ⟨.ComposeFunction, .interfaceDecl, false, none⟩,
  ⟨.Plugin, .interfaceDecl, false, none⟩,
  ⟨.MixinFunction, .interfaceDecl, false, none⟩,
  ⟨.Aliasable, .interfaceDecl, false, none⟩,
  ⟨.Castable, .interfaceDecl, false, some .Aliasable⟩,
  ⟨.Raw, .typeAlias, false, none⟩,
  ⟨.Operator, .typeAlias, false, none⟩,
  ⟨.NonPrimitiveValue, .typeAlias, false, none⟩,
  ⟨.ColumnRef, .typeAlias, false, none⟩,
  ⟨.TableRef, .typeAlias, false, none⟩,
  ⟨.PrimitiveValue, .typeAlias, false, none⟩,
  ⟨.Value, .typeAlias, false, none⟩,
  ⟨.Id, .typeAlias, false, none⟩,
  ⟨.CompositeId, .typeAlias, false, none⟩,
  ⟨.MaybeCompositeId, .typeAlias, false, none⟩ ]

def declFileConstructs2 : List SourceDecl := [
  ⟨.ValueObject, .interfaceDecl, false, none⟩,
  ⟨.PrimitiveValueObject, .interfaceDecl, false, none⟩,
  ⟨.CallbackVoid, .interfaceDecl, false, none⟩,
  ⟨.Identity, .typeAlias, false, none⟩,
  ⟨.AnyQueryBuilder, .typeAlias, false, none⟩,
  ⟨.AnyModelClass, .typeAlias, false, none⟩,
  ⟨.Modifier, .typeAlias, false, none⟩,
  ⟨.OrderByDirection, .typeAlias, false, none⟩,
  ⟨.Modifiers, .interfaceDecl, false, none⟩,
  ⟨.RelationExpression, .typeAlias, false, none⟩,
  ⟨.ItemType, .typeAlias, false, none⟩,
  ⟨.NonFunctionPropertyNames, .typeAlias, false, none⟩,
  ⟨.PartialModelObject, .typeAlias, false, none⟩,
  ⟨.GraphParameters, .typeAlias, false, none⟩,
  ⟨.PartialModelGraph, .typeAlias, false, none⟩,
  ⟨.ModelType, .typeAlias, false, none⟩,
  ⟨.ResultType, .typeAlias, false, none⟩,
  ⟨.ModelProps, .typeAlias, false, none⟩,
  ⟨.SingleQueryBuilder, .typeAlias, false, none⟩,
  ⟨.ArrayQueryBuilder, .typeAlias, false, none⟩,
  ⟨.NumberQueryBuilder, .typeAlias, false, none⟩,
  ⟨.PageQueryBuilder, .typeAlias, false, none⟩,
  ⟨.ForClassMethod, .interfaceDecl, false, none⟩,
  ⟨.Selection, .typeAlias, false, none⟩,
  ⟨.SelectMethod, .interfaceDecl, false, none⟩,
  ⟨.FromMethod, .interfaceDecl, false, none⟩,
  ⟨.DeriveQBType, .typeAlias, false, none⟩,
  ⟨.WhereMethod, .interfaceDecl, false, none⟩,
  ⟨.WhereWrappedMethod, .interfaceDecl, false, none⟩,
  ⟨.WhereExistsMethod, .interfaceDecl, false, none⟩ ]

def declFileConstructs3 : List SourceDecl := [
  ⟨.WhereInMethod, .interfaceDecl, false, none⟩,
  ⟨.QBOrCallback, .typeAlias, false, none⟩,
  ⟨.SetOperations, .interfaceDecl, false, some .BaseSetOperations⟩,
  ⟨.BaseSetOperations, .interfaceDecl, false, none⟩,
  ⟨.UnionMethod, .interfaceDecl, false, some .BaseSetOperations⟩,
  ⟨.JoinRelationOptions, .interfaceDecl, false, none⟩,
  ⟨.JoinRelationMethod, .interfaceDecl, false, none⟩,
  ⟨.JoinMethod, .interfaceDecl, false, none⟩,
  ⟨.IncrementDecrementMethod, .interfaceDecl, false, none⟩,
  ⟨.OrderByMethod, .interfaceDecl, false, none⟩,
  ⟨.FindByIdMethod, .interfaceDecl, false, none⟩,
  ⟨.FindByIdsMethod, .interfaceDecl, false, none⟩,
  ⟨.FirstMethod, .interfaceDecl, false, none⟩,
  ⟨.CastToMethod, .interfaceDecl, false, none⟩,
  ⟨.UpdateMethod, .interfaceDecl, false, none⟩,
  ⟨.UpdateAndFetchMethod, .interfaceDecl, false, none⟩,
  ⟨.UpdateAndFetchByIdMethod, .interfaceDecl, false, none⟩,
  ⟨.DeleteMethod, .interfaceDecl, false, none⟩,
  ⟨.DeleteByIdMethod, .interfaceDecl, false, none⟩,
  ⟨.InsertMethod, .interfaceDecl, false, none⟩,
  ⟨.EagerMethod, .interfaceDecl, false, none⟩,
  ⟨.AllowGraphMethod, .interfaceDecl, false, none⟩,
  ⟨.IdentityMethod, .interfaceDecl, false, none⟩,
  ⟨.OneArgMethod, .interfaceDecl, false, none⟩,
  ⟨.StringReturningMethod, .interfaceDecl, false, none⟩,
  ⟨.BooleanReturningMethod, .interfaceDecl, false, none⟩,
  ⟨.TableRefForMethod, .interfaceDecl, false, none⟩,
  ⟨.ModelClassMethod, .interfaceDecl, false, none⟩,
  ⟨.ReturningMethod, .interfaceDecl, false, none⟩,
  ⟨.Page, .interfaceDecl, false, none⟩ ]

def declFileConstructs4 : List SourceDecl := [
  ⟨.PageMethod, .interfaceDecl, false, none⟩,
  ⟨.RangeMethod, .interfaceDecl, false, none⟩,
  ⟨.RunBeforeCallback, .interfaceDecl, false, none⟩,
  ⟨.RunBeforeMethod, .interfaceDecl, false, none⟩,
  ⟨.RunAfterCallback, .interfaceDecl, false, none⟩,
  ⟨.RunAfterMethod, .interfaceDecl, false, none⟩,
  ⟨.OnBuildMethod, .interfaceDecl, false, none⟩,
  ⟨.OnBuildKnexCallback, .interfaceDecl, false, none⟩,
  ⟨.OnBuildKnexMethod, .interfaceDecl, false, none⟩,
  ⟨.OnErrorCallback, .interfaceDecl, false, none⟩,
  ⟨.OnErrorMethod, .interfaceDecl, false, none⟩,
  ⟨.InsertGraphOptions, .interfaceDecl, false, none⟩,
  ⟨.InsertGraphMethod, .interfaceDecl, false, none⟩,
  ⟨.UpsertGraphOptions, .interfaceDecl, false, none⟩,
  ⟨.UpsertGraphMethod, .interfaceDecl, false, none⟩,
  ⟨.EagerAlgorithm, .interfaceDecl, false, none⟩,
  ⟨.EagerAlgorithmMethod, .interfaceDecl, false, none⟩,
  ⟨.EagerOptions, .interfaceDecl, false, none⟩,
  ⟨.EagerOptionsMethod, .interfaceDecl, false, none⟩,
  ⟨.ModifyEagerMethod, .interfaceDecl, false, none⟩,
  ⟨.ContextMethod, .interfaceDecl, false, none⟩,
  ⟨.Pojo, .interfaceDecl, false, none⟩,
  ⟨.QueryBuilder, .classShape, false, some .PromiseBuiltin⟩,
  ⟨.StaticQueryMethod, .interfaceDecl, false, none⟩,
  ⟨.QueryMethod, .interfaceDecl, false, none⟩,
  ⟨.RelatedQueryBuilder, .typeAlias, false, none⟩,
  ⟨.RelatedQueryMethod, .interfaceDecl, false, none⟩,
  ⟨.LoadRelatedMethod, .interfaceDecl, false, none⟩,
  ⟨.StaticLoadRelatedMethod, .interfaceDecl, false, none⟩,
  ⟨.IdMethod, .interfaceDecl, false, none⟩ ]

def declFileConstructs5 : List SourceDecl := [
  ⟨.Transaction, .interfaceDecl, false, some .knexInterface⟩,
  ⟨.RelationMappings, .interfaceDecl, false, none⟩,
  ⟨.ModelClassFactory, .typeAlias, false, none⟩,
  ⟨.ModelClassSpecifier, .typeAlias, false, none⟩,
  ⟨.RelationMappingHook, .typeAlias, false, none⟩,
  ⟨.RelationMappingColumnRef, .typeAlias, false, none⟩,
  ⟨.RelationMapping, .interfaceDecl, false, none⟩,
  ⟨.RelationJoin, .interfaceDecl, false, none⟩,
  ⟨.RelationThrough, .interfaceDecl, false, none⟩,
  ⟨.Relation, .interfaceDecl, false, none⟩,
  ⟨.QueryContext, .interfaceDecl, false, none⟩,
  ⟨.ModelOptions, .interfaceDecl, false, none⟩,
  ⟨.CloneOptions, .interfaceDecl, false, none⟩,
  ⟨.ToJsonOptions, .interfaceDecl, false, some .CloneOptions⟩,
  ⟨.ValidatorContext, .interfaceDecl, false, none⟩,
  ⟨.ValidatorArgs, .interfaceDecl, false, none⟩,
  ⟨.Validator, .classShape, false, none⟩,
  ⟨.AjvConfig, .interfaceDecl, false, none⟩,
  ⟨.AjvValidator, .classShape, false, some .Validator⟩,
  ⟨.SnakeCaseMappersOptions, .interfaceDecl, false, none⟩,
  ⟨.ColumnNameMappers, .interfaceDecl, false, none⟩,
  ⟨.SnakeCaseMappersFactory, .interfaceDecl, false, none⟩,
  ⟨.KnexMappers, .interfaceDecl, false, none⟩,
  ⟨.KnexSnakeCaseMappersFactory, .interfaceDecl, false, none⟩,
  ⟨.ValidationErrorType, .typeAlias, false, none⟩,
  ⟨.ValidationError, .classShape, false, some .ErrorBuiltin⟩,
  ⟨.ValidationErrorItem, .interfaceDecl, false, none⟩,
  ⟨.ErrorHash, .interfaceDecl, false, none⟩,
  ⟨.CreateValidationErrorArgs, .interfaceDecl, false, none⟩,
  ⟨.TableMetadata, .interfaceDecl, false, none⟩ ]

def declFileConstructs6 : List SourceDecl := [
  ⟨.TableMetadataOptions, .interfaceDecl, false, none⟩,
  ⟨.FetchTableMetadataOptions, .interfaceDecl, false, none⟩,
  ⟨.BindKnexMethod, .interfaceDecl, false, none⟩,
  ⟨.FromJsonMethod, .interfaceDecl, false, none⟩,
  ⟨.Model, .classShape, false, none⟩ ]

def declFileConstructs : List SourceDecl :=
  declFileConstructs1 ++ declFileConstructs2 ++ declFileConstructs3 ++ declFileConstructs4 ++ declFileConstructs5 ++ declFileConstructs6

/-- The declarations of the example usage file: four runtime classes (one
of which, `CustomQueryBuilder`, contains the executable method
`someCustomMethod`, listed separately) and three initialized const
bindings. -/
def exampleFileDecls : List SourceDecl := [
  ⟨.CustomQueryBuilder, .classImpl, true, some .QueryBuilder⟩,
  ⟨.someCustomMethod, .methodImpl, true, none⟩,
  ⟨.BaseModel, .classImpl, false, some .Model⟩,
  ⟨.Animal, .classImpl, false, some .BaseModel⟩,
  ⟨.Person, .classImpl, false, some .BaseModel⟩,
  ⟨.people, .constBinding, true, none⟩,
  ⟨.pets, .constBinding, true, none⟩,
  ⟨.numUpdated, .constBinding, true, none⟩ ]

/-- All declarations of the repository: the ambient declarations file
followed by the example usage file. -/
def repoDecls : List SourceDecl := declFileConstructs ++ exampleFileDecls

/-- The `extends` parent recorded for a declared name, if any. -/
def parentOf (n : CName) : Option CName :=
  match repoDecls.find? (fun d => d.name == n) with
  | some d => d.extendsParent
  | none => none

/-- The chain of `extends` ancestors of a name, cut off at `fuel` steps. -/
def ancestorsUpTo : Nat → CName → List CName
  | 0, _ => []
  | fuel + 1, n =>
    match parentOf n with
    | some p => p :: ancestorsUpTo fuel p
    | none => []

/-- Whether the `extends` relation of the repository is acyclic: no
declared name is among its own ancestors (all chains have length at most
three, so fuel 8 is exhaustive). -/
def extendsAcyclic : Bool :=
  repoDecls.all (fun d => !((ancestorsUpTo 8 d.name).contains d.name))

/-! ## The instance members of the `QueryBuilder` class -/

/-- The names of the instance members declared in the body of the
`QueryBuilder` class (index.d.ts lines 577-725), in source order. -/
inductive MName where
  | select | columns | column | distinct
  | «from» | table | into
  | «where» | andWhere | orWhere | whereNot | andWhereNot | orWhereNot
  | whereRaw | orWhereRaw | andWhereRaw
  | whereWrapped | havingWrapped
  | whereExists | orWhereExists | whereNotExists | orWhereNotExists
  | whereIn | orWhereIn | whereNotIn | orWhereNotIn
  | union | unionAll
  | joinRelation | innerJoinRelation | outerJoinRelation | leftJoinRelation
  | leftOuterJoinRelation | rightJoinRelation | rightOuterJoinRelation
  | fullOuterJoinRelation
  | join | joinRaw | innerJoin | leftJoin | leftOuterJoin | rightJoin
  | rightOuterJoin | outerJoin | fullOuterJoin | crossJoin
  | increment | decrement
  | findById | findByIds | findOne
  | first
  | orderBy | orderByRaw
  | castTo
  | update | updateAndFetch | updateAndFetchById
  | patch | patchAndFetch | patchAndFetchById
  | del | delete | deleteById
  | insert | insertAndFetch
  | eager | mergeEager | joinEager | mergeJoinEager | naiveEager
  | mergeNaiveEager
  | allowEager | mergeAllowEager | allowInsert | allowUpsert
  | throwIfNotFound | returning | forUpdate | skipUndefined | debug
  | as | alias | withSchema | modelClass | tableNameFor | tableRefFor
  | toSql | reject | resolve
  | page | range
  | runBefore | runAfter
  | onBuild | onBuildKnex | onError
  | insertGraph | insertGraphAndFetch | insertWithRelated
  | insertWithRelatedAndFetch
  | upsertGraph | upsertGraphAndFetch
  | eagerAlgorithm | eagerOptions | modifyEager
  | context | mergeContext
  | isFind | isInsert | isUpdate | isDelete | isRelate | isUnrelate
  | hasWheres | hasSelects | hasEager
deriving DecidableEq, Fintype, Repr

/-- The shape of a member's declared return type, as written in its method
interface. -/
inductive RetSpec where
  /-- `(this: QB, ...): QB` — returns the receiver's own type. -/
  | receiver
  /-- the polymorphic `this` type (the `RawInterface<this>` members). -/
  | thisTy
  /-- `DeriveQBType<QB, t>` or the equivalent direct
  `...QueryBuilder<QB>` member lookup. -/
  | derive (t : QBType)
  /-- the conditional type of `FirstMethod` (lines 373-377). -/
  | conditionalFirst
  /-- the conditional type of `ReturningMethod` (lines 441-448). -/
  | conditionalReturning
  /-- `InstanceType<M>['QueryBuilderType']` of the model-class argument
  (`CastToMethod`, lines 379-381) — not derived from the receiver. -/
  | targetBuilder
  /-- the receiver's model class `M` (`ModelClassMethod`). -/
  | modelClassRet
  /-- `string`. -/
  | stringRet
  /-- `boolean`. -/
  | booleanRet
  /-- `QueryContext` (the getter overload of `ContextMethod`). -/
  | queryContextRet
deriving DecidableEq, Fintype, Repr

/-- One instance member of the `QueryBuilder` class: its name, the method
interface its declared type names, whether that interface declares the
member with receiver polymorphism (a `this: QB` parameter or the `this`
type), and the return shapes of its overloads. -/
structure QBMember where
  name : MName
  iface : CName
  thisPoly : Bool
  rets : List RetSpec
deriving DecidableEq, Repr

/-- The instance members of `QueryBuilder` (index.d.ts lines 577-725) with
their declared method interfaces.  The type-only properties `ModelType`,
`ResultType`, `execute` and the four `...QueryBuilderType` members (lines
727-735) are data properties, not methods, and are embedded as the `QBTy`
member functions above. -/
def queryBuilderMembers1 : List QBMember := [
  ⟨.select, .SelectMethod, true, [.receiver]⟩,
  ⟨.columns, .SelectMethod, true, [.receiver]⟩,
  ⟨.column, .SelectMethod, true, [.receiver]⟩,
  ⟨.distinct, .SelectMethod, true, [.receiver]⟩,
  ⟨.«from», .FromMethod, true, [.receiver]⟩,
  ⟨.table, .FromMethod, true, [.receiver]⟩,
  ⟨.into, .FromMethod, true, [.receiver]⟩,
  ⟨.«where», .WhereMethod, true, [.derive .Array]⟩,
  ⟨.andWhere, .WhereMethod, true, [.derive .Array]⟩,
  ⟨.orWhere, .WhereMethod, true, [.derive .Array]⟩,
  ⟨.whereNot, .WhereMethod, true, [.derive .Array]⟩,
  ⟨.andWhereNot, .WhereMethod, true, [.derive .Array]⟩,
  ⟨.orWhereNot, .WhereMethod, true, [.derive .Array]⟩,
  ⟨.whereRaw, .RawInterface, true, [.thisTy]⟩,
  ⟨.orWhereRaw, .RawInterface, true, [.thisTy]⟩,
  ⟨.andWhereRaw, .RawInterface, true, [.thisTy]⟩,
  ⟨.whereWrapped, .WhereWrappedMethod, true, [.receiver]⟩,
  ⟨.havingWrapped, .WhereWrappedMethod, true, [.receiver]⟩,
  ⟨.whereExists, .WhereExistsMethod, true, [.receiver]⟩,
  ⟨.orWhereExists, .WhereExistsMethod, true, [.receiver]⟩,
  ⟨.whereNotExists, .WhereExistsMethod, true, [.receiver]⟩,
  ⟨.orWhereNotExists, .WhereExistsMethod, true, [.receiver]⟩,
  ⟨.whereIn, .WhereInMethod, true, [.receiver]⟩,
  ⟨.orWhereIn, .WhereInMethod, true, [.receiver]⟩,
  ⟨.whereNotIn, .WhereInMethod, true, [.receiver]⟩ ]

def queryBuilderMembers2 : List QBMember := [
  ⟨.orWhereNotIn, .WhereInMethod, true, [.receiver]⟩,
  ⟨.union, .UnionMethod, true, [.receiver]⟩,
  ⟨.unionAll, .UnionMethod, true, [.receiver]⟩,
  ⟨.joinRelation, .JoinRelationMethod, true, [.receiver]⟩,
  ⟨.innerJoinRelation, .JoinRelationMethod, true, [.receiver]⟩,
  ⟨.outerJoinRelation, .JoinRelationMethod, true, [.receiver]⟩,
  ⟨.leftJoinRelation, .JoinRelationMethod, true, [.receiver]⟩,
  ⟨.leftOuterJoinRelation, .JoinRelationMethod, true, [.receiver]⟩,
  ⟨.rightJoinRelation, .JoinRelationMethod, true, [.receiver]⟩,
  ⟨.rightOuterJoinRelation, .JoinRelationMethod, true, [.receiver]⟩,
  ⟨.fullOuterJoinRelation, .JoinRelationMethod, true, [.receiver]⟩,
  ⟨.join, .JoinMethod, true, [.receiver]⟩,
  ⟨.joinRaw, .RawInterface, true, [.thisTy]⟩,
  ⟨.innerJoin, .JoinMethod, true, [.receiver]⟩,
  ⟨.leftJoin, .JoinMethod, true, [.receiver]⟩,
  ⟨.leftOuterJoin, .JoinMethod, true, [.receiver]⟩,
  ⟨.rightJoin, .JoinMethod, true, [.receiver]⟩,
  ⟨.rightOuterJoin, .JoinMethod, true, [.receiver]⟩,
  ⟨.outerJoin, .JoinMethod, true, [.receiver]⟩,
  ⟨.fullOuterJoin, .JoinMethod, true, [.receiver]⟩,
  ⟨.crossJoin, .JoinMethod, true, [.receiver]⟩,
  ⟨.increment, .IncrementDecrementMethod, true, [.receiver]⟩,
  ⟨.decrement, .IncrementDecrementMethod, true, [.receiver]⟩,
  ⟨.findById, .FindByIdMethod, true, [.derive .Single]⟩,
  ⟨.findByIds, .FindByIdsMethod, true, [.receiver]⟩ ]

def queryBuilderMembers3 : List QBMember := [
  ⟨.findOne, .WhereMethod, true, [.derive .Single]⟩,
  ⟨.first, .FirstMethod, true, [.conditionalFirst]⟩,
  ⟨.orderBy, .OrderByMethod, true, [.receiver]⟩,
  ⟨.orderByRaw, .RawInterface, true, [.thisTy]⟩,
  ⟨.castTo, .CastToMethod, false, [.targetBuilder]⟩,
  ⟨.update, .UpdateMethod, true, [.derive .Number]⟩,
  ⟨.updateAndFetch, .UpdateAndFetchMethod, true, [.derive .Single]⟩,
  ⟨.updateAndFetchById, .UpdateAndFetchByIdMethod, true, [.derive .Single]⟩,
  ⟨.patch, .UpdateMethod, true, [.derive .Number]⟩,
  ⟨.patchAndFetch, .UpdateAndFetchMethod, true, [.derive .Single]⟩,
  ⟨.patchAndFetchById, .UpdateAndFetchByIdMethod, true, [.derive .Single]⟩,
  ⟨.del, .DeleteMethod, true, [.derive .Number]⟩,
  ⟨.delete, .DeleteMethod, true, [.derive .Number]⟩,
  ⟨.deleteById, .DeleteByIdMethod, true, [.derive .Number]⟩,
  ⟨.insert, .InsertMethod, true, [.derive .Single, .derive .Array]⟩,
  ⟨.insertAndFetch, .InsertMethod, true, [.derive .Single, .derive .Array]⟩,
  ⟨.eager, .EagerMethod, true, [.receiver]⟩,
  ⟨.mergeEager, .EagerMethod, true, [.receiver]⟩,
  ⟨.joinEager, .EagerMethod, true, [.receiver]⟩,
  ⟨.mergeJoinEager, .EagerMethod, true, [.receiver]⟩,
  ⟨.naiveEager, .EagerMethod, true, [.receiver]⟩,
  ⟨.mergeNaiveEager, .EagerMethod, true, [.receiver]⟩,
  ⟨.allowEager, .AllowGraphMethod, true, [.receiver]⟩,
  ⟨.mergeAllowEager, .AllowGraphMethod, true, [.receiver]⟩,
  ⟨.allowInsert, .AllowGraphMethod, true, [.receiver]⟩ ]

def queryBuilderMembers4 : List QBMember := [
  ⟨.allowUpsert, .AllowGraphMethod, true, [.receiver]⟩,
  ⟨.throwIfNotFound, .IdentityMethod, true, [.receiver]⟩,
  ⟨.returning, .ReturningMethod, true, [.conditionalReturning]⟩,
  ⟨.forUpdate, .IdentityMethod, true, [.receiver]⟩,
  ⟨.skipUndefined, .IdentityMethod, true, [.receiver]⟩,
  ⟨.debug, .IdentityMethod, true, [.receiver]⟩,
  ⟨.as, .OneArgMethod, true, [.receiver]⟩,
  ⟨.alias, .OneArgMethod, true, [.receiver]⟩,
  ⟨.withSchema, .OneArgMethod, true, [.receiver]⟩,
  ⟨.modelClass, .ModelClassMethod, true, [.modelClassRet]⟩,
  ⟨.tableNameFor, .TableRefForMethod, true, [.stringRet]⟩,
  ⟨.tableRefFor, .TableRefForMethod, true, [.stringRet]⟩,
  ⟨.toSql, .StringReturningMethod, true, [.stringRet]⟩,
  ⟨.reject, .OneArgMethod, true, [.receiver]⟩,
  ⟨.resolve, .OneArgMethod, true, [.receiver]⟩,
  ⟨.page, .PageMethod, true, [.derive .Page]⟩,
  ⟨.range, .RangeMethod, true, [.derive .Page]⟩,
  ⟨.runBefore, .RunBeforeMethod, true, [.receiver]⟩,
  ⟨.runAfter, .RunAfterMethod, true, [.receiver]⟩,
  ⟨.onBuild, .OnBuildMethod, true, [.receiver]⟩,
  ⟨.onBuildKnex, .OnBuildKnexMethod, true, [.receiver]⟩,
  ⟨.onError, .OnErrorMethod, true, [.receiver]⟩,
  ⟨.insertGraph, .InsertGraphMethod, true, [.derive .Single, .derive .Array]⟩,
  ⟨.insertGraphAndFetch, .InsertGraphMethod, true, [.derive .Single, .derive .Array]⟩,
  ⟨.insertWithRelated, .InsertGraphMethod, true, [.derive .Single, .derive .Array]⟩ ]

def queryBuilderMembers5 : List QBMember := [
  ⟨.insertWithRelatedAndFetch, .InsertGraphMethod, true, [.derive .Single, .derive .Array]⟩,
  ⟨.upsertGraph, .UpsertGraphMethod, true, [.derive .Single, .derive .Array]⟩,
  ⟨.upsertGraphAndFetch, .UpsertGraphMethod, true, [.derive .Single, .derive .Array]⟩,
  ⟨.eagerAlgorithm, .EagerAlgorithmMethod, true, [.receiver]⟩,
  ⟨.eagerOptions, .EagerOptionsMethod, true, [.receiver]⟩,
  ⟨.modifyEager, .ModifyEagerMethod, true, [.receiver]⟩,
  ⟨.context, .ContextMethod, true, [.receiver, .queryContextRet]⟩,
  ⟨.mergeContext, .ContextMethod, true, [.receiver, .queryContextRet]⟩,
  ⟨.isFind, .BooleanReturningMethod, true, [.booleanRet]⟩,
  ⟨.isInsert, .BooleanReturningMethod, true, [.booleanRet]⟩,
  ⟨.isUpdate, .BooleanReturningMethod, true, [.booleanRet]⟩,
  ⟨.isDelete, .BooleanReturningMethod, true, [.booleanRet]⟩,
  ⟨.isRelate, .BooleanReturningMethod, true, [.booleanRet]⟩,
  ⟨.isUnrelate, .BooleanReturningMethod, true, [.booleanRet]⟩,
  ⟨.hasWheres, .BooleanReturningMethod, true, [.booleanRet]⟩,
  ⟨.hasSelects, .BooleanReturningMethod, true, [.booleanRet]⟩,
  ⟨.hasEager, .BooleanReturningMethod, true, [.booleanRet]⟩ ]

/-- All instance members of `QueryBuilder`, in source order. -/
def queryBuilderMembers : List QBMember :=
  queryBuilderMembers1 ++ queryBuilderMembers2 ++ queryBuilderMembers3 ++ queryBuilderMembers4 ++ queryBuilderMembers5

/-- Whether a return shape is a query-builder type (so that the chain can
continue on the returned value). -/
def returnsBuilderTy : RetSpec → Bool
  | .receiver | .thisTy | .derive _ | .conditionalFirst
  | .conditionalReturning | .targetBuilder => true
  | .modelClassRet | .stringRet | .booleanRet | .queryContextRet => false

/-- The builder type a receiver-derived return shape produces from the
receiver's type.  `targetBuilder` (`castTo`) and the non-builder shapes do
not produce a type from the receiver. -/
def applyRetSpec (qb : QBTy) : RetSpec → Option QBTy
  | .receiver => some qb
  | .thisTy => some qb
  | .derive t => some (DeriveQBType qb t)
  | .conditionalFirst => some (first qb)
  | .conditionalReturning => some (returning qb)
  | .targetBuilder => none
  | .modelClassRet => none
  | .stringRet => none
  | .booleanRet => none
  | .queryContextRet => none

/-- The return type of `castTo(modelClass)` (`CastToMethod`, index.d.ts
lines 379-381): the argument model's own `QueryBuilderType`, independent of
the receiver. -/
def castToRet (m : ModelName) : QBTy := QueryBuilderTypeOf m

/-- The return shapes that keep a chain inside the receiver's builder
class for the repository's builders: the receiver itself, the `this` type,
and the `Array`, `Single` and `Number` derivations, which
`CustomQueryBuilder` overrides (example lines 1031-1033), together with the
two conditional types, which only use those three.  `derive .Page` is
excluded: `PageQueryBuilderType` is not overridden, and `targetBuilder`
ignores the receiver. -/
def preservesSubclass : RetSpec → Bool
  | .receiver | .thisTy => true
  | .derive .Array | .derive .Single | .derive .Number => true
  | .conditionalFirst | .conditionalReturning => true
  | _ => false

/-- Folding a list of receiver-derived return shapes over a starting
builder type: the type of a method chain. -/
def applyChain (qb : QBTy) : List RetSpec → Option QBTy
  | [] => some qb
  | r :: rs =>
    match applyRetSpec qb r with
    | some qb1 => applyChain qb1 rs
    | none => none

/-! ## Parameter shapes of the mutation methods -/

/-- The parameter shapes the mutation-method interfaces declare. -/
inductive ParamSpec where
  /-- `PartialModelObject<M>` for the receiver's model `M`. -/
  | pmObject
  /-- `PartialModelObject<M>[]`. -/
  | pmObjectArr
  /-- `MaybeCompositeId`. -/
  | maybeCompositeId
deriving DecidableEq, Fintype, Repr

/-- The parameter of `UpdateMethod` (index.d.ts line 384), shared by
`update` and `patch`. -/
def UpdateMethodParam : ParamSpec := .pmObject

/-- `UpdateMethod`'s return type: `NumberQueryBuilder<QB>` (line 384). -/
def UpdateMethodRet (qb : QBTy) : QBTy := qb.NumberQueryBuilderType

/-- `DeleteMethod` takes no arguments (line 396), shared by `del` and
`delete`. -/
def DeleteMethodParams : List ParamSpec := []

/-- `DeleteMethod`'s return type: `NumberQueryBuilder<QB>` (line 396). -/
def DeleteMethodRet (qb : QBTy) : QBTy := qb.NumberQueryBuilderType

/-- The parameter of `DeleteByIdMethod` (line 400). -/
def DeleteByIdMethodParam : ParamSpec := .maybeCompositeId

/-- `DeleteByIdMethod`'s return type: `NumberQueryBuilder<QB>` (line
400). -/
def DeleteByIdMethodRet (qb : QBTy) : QBTy := qb.NumberQueryBuilderType

/-- Overload resolution for `InsertMethod` (lines 403-406): a single
`PartialModelObject<M>` selects `SingleQueryBuilder<QB>`, an array of them
selects `ArrayQueryBuilder<QB>`; other argument shapes match no
overload. -/
def InsertMethodRet (qb : QBTy) : ParamSpec → Option QBTy
  | .pmObject => some qb.SingleQueryBuilderType
  | .pmObjectArr => some qb.ArrayQueryBuilderType
  | .maybeCompositeId => none

/-! ## Shapes of the error and case-mapping declarations -/

/-- The types that occur in the declared fields of the validation-error
constructs (index.d.ts lines 902-933). -/
inductive ErrTy where
  | numberTy
  | stringTy
  | anyTy
  | pojoTy
  /-- the `ErrorHash` interface (line 923). -/
  | errorHashTy
  /-- the union alias `ValidationErrorType` (lines 902-906). -/
  | validationErrorTypeTy
  /-- `ValidationErrorItem[]`, the value type of `ErrorHash`'s index
  signature (line 924). -/
  | validationErrorItemArrayTy
  /-- the `CreateValidationErrorArgs` interface (line 927). -/
  | createValidationErrorArgsTy
  | unionTy (a b : ErrTy)
deriving DecidableEq, Repr

/-- A declared field: name, whether it is optional (`?`), and its type. -/
structure FieldSig where
  name : String
  optional : Bool
  ty : ErrTy
deriving DecidableEq, Repr

/-- The instance fields of `class ValidationError extends Error`
(index.d.ts lines 908-915). -/
def ValidationErrorFields : List FieldSig := [
  ⟨"statusCode", false, .numberTy⟩,
  ⟨"message", false, .stringTy⟩,
  ⟨"data", true, .unionTy .errorHashTy .anyTy⟩,
  ⟨"type", false, .validationErrorTypeTy⟩ ]

/-- The parameter type of `ValidationError`'s constructor (line 909). -/
def ValidationErrorCtorParam : ErrTy := .createValidationErrorArgsTy

/-- The members of the string-literal union `ValidationErrorType`
(index.d.ts lines 902-906). -/
def ValidationErrorTypeValues : List String :=
  ["ModelValidation", "RelationExpression", "UnallowedRelation", "InvalidGraph"]

/-- The fields of `ValidationErrorItem` (index.d.ts lines 917-921). -/
def ValidationErrorItemFields : List FieldSig := [
  ⟨"message", false, .stringTy⟩,
  ⟨"keyword", false, .stringTy⟩,
  ⟨"params", false, .pojoTy⟩ ]

/-- The value type of `ErrorHash`'s index signature
`[columnName: string]: ValidationErrorItem[]` (index.d.ts line 924). -/
def ErrorHashIndexValueTy : ErrTy := .validationErrorItemArrayTy

/-- The fields of `CreateValidationErrorArgs` (index.d.ts lines 927-933):
`type` is `ValidationErrorType | string`, so it may be any string for
custom errors. -/
def CreateValidationErrorArgsFields : List FieldSig := [
  ⟨"message", true, .stringTy⟩,
  ⟨"data", true, .unionTy .errorHashTy .anyTy⟩,
  ⟨"type", false, .unionTy .validationErrorTypeTy .stringTy⟩ ]

/-- A declared interface member: name and whether it is optional. -/
structure MemberSig where
  name : String
  optional : Bool
deriving DecidableEq, Repr

/-- The fields of `RelationMapping` (index.d.ts lines 809-816). -/
def RelationMappingFields : List MemberSig := [
  ⟨"relation", false⟩, ⟨"modelClass", false⟩, ⟨"join", false⟩,
  ⟨"modify", true⟩, ⟨"filter", true⟩, ⟨"beforeInsert", true⟩ ]

/-- The value type of `RelationMappings`' index signature
`[relationName: string]: RelationMapping` (index.d.ts lines 800-802). -/
def RelationMappingsIndexValue : CName := .RelationMapping

/-- The fields of `RelationJoin` (index.d.ts lines 818-822). -/
def RelationJoinFields : List MemberSig := [
  ⟨"from", false⟩, ⟨"to", false⟩, ⟨"through", true⟩ ]

/-- The fields of `RelationThrough` (index.d.ts lines 824-830). -/
def RelationThroughFields : List MemberSig := [
  ⟨"from", false⟩, ⟨"to", false⟩, ⟨"extra", true⟩,
  ⟨"modelClass", true⟩, ⟨"beforeInsert", true⟩ ]

/-- The fields of `SnakeCaseMappersOptions` (index.d.ts lines 879-882). -/
def SnakeCaseMappersOptionsFields : List MemberSig := [
  ⟨"upperCase", true⟩, ⟨"underscoreBeforeDigits", true⟩ ]

/-- The members of `ColumnNameMappers` (index.d.ts lines 884-887). -/
def ColumnNameMappersMembers : List MemberSig := [
  ⟨"parse", false⟩, ⟨"format", false⟩ ]

/-- The members of `KnexMappers` (index.d.ts lines 893-896). -/
def KnexMappersMembers : List MemberSig := [
  ⟨"wrapIdentifier", false⟩, ⟨"postProcessResponse", false⟩ ]

/-! ## Helper lemmas -/

/-- The `Array`, `Single` and `Number` member lookups and the two
conditional types keep the builder class of the receiver. -/
theorem builder_step_preserves_cls (qb : QBTy) :
    qb.ArrayQueryBuilderType.cls = qb.cls
    ∧ qb.SingleQueryBuilderType.cls = qb.cls
    ∧ qb.NumberQueryBuilderType.cls = qb.cls
    ∧ (first qb).cls = qb.cls
    ∧ (returning qb).cls = qb.cls := by
  revert qb
  decide

/-- A single subclass-preserving return shape keeps the builder class of
the receiver. -/
theorem applyRetSpec_preserves_cls (qb : QBTy) (r : RetSpec) (qb' : QBTy)
    (hr : preservesSubclass r = true) (h : applyRetSpec qb r = some qb') :
    qb'.cls = qb.cls := by
  cases r with
  | receiver =>
    simp only [applyRetSpec, Option.some.injEq] at h
    subst h; rfl
  | thisTy =>
    simp only [applyRetSpec, Option.some.injEq] at h
    subst h; rfl
  | derive t =>
    cases t with
    | Array =>
      simp only [applyRetSpec, DeriveQBType, Option.some.injEq] at h
      subst h; exact (builder_step_preserves_cls qb).1
    | Single =>
      simp only [applyRetSpec, DeriveQBType, Option.some.injEq] at h
      subst h; exact (builder_step_preserves_cls qb).2.1
    | Number =>
      simp only [applyRetSpec, DeriveQBType, Option.some.injEq] at h
      subst h; exact (builder_step_preserves_cls qb).2.2.1
    | Page => exact absurd hr (by decide)
  | conditionalFirst =>
    simp only [applyRetSpec, Option.some.injEq] at h
    subst h; exact (builder_step_preserves_cls qb).2.2.2.1
  | conditionalReturning =>
    simp only [applyRetSpec, Option.some.injEq] at h
    subst h; exact (builder_step_preserves_cls qb).2.2.2.2
  | targetBuilder => exact Option.noConfusion h
  | modelClassRet => exact Option.noConfusion h
  | stringRet => exact Option.noConfusion h
  | booleanRet => exact Option.noConfusion h
  | queryContextRet => exact Option.noConfusion h

/-- A chain of subclass-preserving return shapes keeps the builder class
of the starting builder type. -/
theorem applyChain_preserves_cls (qb : QBTy) (rs : List RetSpec)
    (hrs : ∀ r ∈ rs, preservesSubclass r = true) (qb' : QBTy)
    (h : applyChain qb rs = some qb') : qb'.cls = qb.cls := by
  induction rs generalizing qb with
  | nil =>
    rw [applyChain] at h
    cases h
    rfl
  | cons r rs ih =>
    rw [applyChain] at h
    cases hq : applyRetSpec qb r with
    | none => rw [hq] at h; cases h
    | some qb1 =>
      rw [hq] at h
      have h1 : qb'.cls = qb1.cls :=
        ih qb1 (fun s hs => hrs s (List.mem_cons_of_mem r hs)) h
      have h2 : qb1.cls = qb.cls :=
        applyRetSpec_preserves_cls qb r qb1 (hrs r (List.mem_cons_self r rs)) hq
      exact h1.trans h2

/-! ## The claims -/

/-- C1: the example usage file type-checks against the declarations.
`Person.query().someCustomMethod().where('firstName', 'lol')
.someCustomMethod()` is a `CustomQueryBuilder<Person, Person[]>`, hence a
`Promise<Person[]>`; `new Person().$relatedQuery('pets')
.someCustomMethod().where('id', 1).first().someCustomMethod()` is a
`CustomQueryBuilder<Animal, Animal>`, hence a `Promise<Animal>`; and
`Person.query().someCustomMethod().patch({ firstName: 'test' })
.someCustomMethod()` is a `CustomQueryBuilder<Person, number>`, hence a
`Promise<number>`.  (`where` is `WhereMethod<'Array'>`, whose string
`ColumnRef` overload accepts the column arguments; `patch` is
`UpdateMethod`, and `{ firstName: 'test' }` matches
`PartialModelObject<Person>`.)  Each `someCustomMethod` call resolves
because every intermediate type is a `CustomQueryBuilder`. -/
theorem example_usage_typechecks :
    ((someCustomMethod (query .Person)).bind fun q =>
        someCustomMethod (DeriveQBType q .Array)) =
      some ⟨.CustomQueryBuilder, .Person, .arrOf .Person⟩
    ∧ QBTy.promisePayload ⟨.CustomQueryBuilder, .Person, .arrOf .Person⟩ =
        .arrOf .Person
    ∧ (((relatedQuery .Person .pets).bind someCustomMethod).bind fun q =>
        someCustomMethod (first (DeriveQBType q .Array))) =
      some ⟨.CustomQueryBuilder, .Animal, .instanceOf .Animal⟩
    ∧ QBTy.promisePayload ⟨.CustomQueryBuilder, .Animal, .instanceOf .Animal⟩ =
        .instanceOf .Animal
    ∧ ((someCustomMethod (query .Person)).bind fun q =>
        someCustomMethod (UpdateMethodRet q)) =
      some ⟨.CustomQueryBuilder, .Person, .numberTy⟩
    ∧ QBTy.promisePayload ⟨.CustomQueryBuilder, .Person, .numberTy⟩ =
        .numberTy := by
  decide

/-- C2, counterexample: the repository does contain a declaration with an
executable function body — the example file's `someCustomMethod`, whose
body is `return this` (example lines 1035-1037) — so "for every
declaration in the repository there is no executable function body" is
false. -/
theorem repo_declaration_with_executable_body :
    repoDecls.contains ⟨.someCustomMethod, .methodImpl, true, none⟩ = true
    ∧ SourceDecl.hasExecutableBody ⟨.someCustomMethod, .methodImpl, true, none⟩ =
        true := by
  decide

/-- C2, amended: no declaration of the declarations file
(`typings/objection/index.d.ts`) carries runtime behavior — every construct
there has no executable body; the example usage file, by contrast, contains
executable code: the body of `someCustomMethod` and the three initialized
const bindings `people`, `pets` and `numUpdated`. -/
theorem no_runtime_behavior_in_declarations_file :
    declFileConstructs.all (fun c => !c.hasExecutableBody) = true
    ∧ exampleFileDecls.contains ⟨.someCustomMethod, .methodImpl, true, none⟩ =
        true
    ∧ exampleFileDecls.contains ⟨.people, .constBinding, true, none⟩ = true
    ∧ exampleFileDecls.contains ⟨.pets, .constBinding, true, none⟩ = true
    ∧ exampleFileDecls.contains ⟨.numUpdated, .constBinding, true, none⟩ =
        true := by
  decide

/-- C3, counterexample: the declarations file also contains ambient
`const` declarations — `const raw: RawFunction` (index.d.ts line 21) is a
variable declaration, not a type alias, interface or class-shape
declaration — so "no construct in that file declares anything of another
kind" is false. -/
theorem ambient_const_raw_is_not_alias_interface_or_class :
    declFileConstructs.find? (fun c => c.name == .raw) =
      some ⟨.raw, .ambientConst, false, none⟩
    ∧ [DeclKind.typeAlias, .interfaceDecl, .classShape].contains
        .ambientConst = false := by
  decide

/-- C3, amended: every construct in the declarations file is a
compile-time-only type alias, interface, class-shape declaration, or
ambient (initializer-free) `const` declaration — the seven namespace
consts `raw`, `lit`, `ref`, `compose`, `mixin`, `snakeCaseMappers` and
`knexSnakeCaseMappers` are of the last kind — and none carries executable
code. -/
theorem decl_file_constructs_are_compile_time_only :
    declFileConstructs.all (fun c =>
      (c.kind == .typeAlias || c.kind == .interfaceDecl ||
        c.kind == .classShape || c.kind == .ambientConst) &&
      !c.hasExecutableBody) = true := by
  decide

/-- C4, counterexample: the `data` field of `ValidationError` is declared
with type `ErrorHash | any` (index.d.ts line 913), not with type
`ErrorHash`, so the claim's description of the field's type is not the
declared one. -/
theorem validation_error_data_declared_union_with_any :
    ValidationErrorFields.find? (fun f => f.name == "data") =
      some ⟨"data", true, .unionTy .errorHashTy .anyTy⟩
    ∧ ErrTy.unionTy .errorHashTy .anyTy ≠ ErrTy.errorHashTy := by
  constructor
  · decide
  · decide

/-- C4, amended: `ValidationError` is declared as a subclass of `Error`
with a numeric `statusCode`, a string `message`, an optional `data` field
of type `ErrorHash | any` (`ErrorHash` maps each column name to an array of
`ValidationErrorItem`, each with `message`, `keyword` and `params`), and a
`type` field whose default values are exactly `ModelValidation`,
`RelationExpression`, `UnallowedRelation` and `InvalidGraph`; its
constructor takes a `CreateValidationErrorArgs`, in which `type` may also
be any string for custom errors. -/
theorem validation_error_declared_shape :
    parentOf .ValidationError = some .ErrorBuiltin
    ∧ ValidationErrorFields.contains ⟨"statusCode", false, .numberTy⟩ = true
    ∧ ValidationErrorFields.contains ⟨"message", false, .stringTy⟩ = true
    ∧ ValidationErrorFields.contains
        ⟨"data", true, .unionTy .errorHashTy .anyTy⟩ = true
    ∧ ValidationErrorFields.contains
        ⟨"type", false, .validationErrorTypeTy⟩ = true
    ∧ ValidationErrorTypeValues =
        ["ModelValidation", "RelationExpression", "UnallowedRelation",
          "InvalidGraph"]
    ∧ ErrorHashIndexValueTy = .validationErrorItemArrayTy
    ∧ ValidationErrorItemFields.map FieldSig.name =
        ["message", "keyword", "params"]
    ∧ ValidationErrorCtorParam = .createValidationErrorArgsTy
    ∧ CreateValidationErrorArgsFields.find? (fun f => f.name == "type") =
        some ⟨"type", false, .unionTy .validationErrorTypeTy .stringTy⟩ := by
  refine ⟨by decide, by decide, by decide, by decide, by decide, ?_, by decide,
    ?_, by decide, by decide⟩
  · decide
  · decide

/-- C5: the declared type contract includes all four advertised shape
families — the `QueryBuilder` class whose every instance member is typed by
an interface declared in the file; the relation-mapping configuration
interfaces `RelationMappings` (whose index signature's value type is
`RelationMapping`), `RelationMapping`, `RelationJoin` and
`RelationThrough`; the validation-error constructs `ValidationError` (a
class shape) and `ErrorHash` (an interface); and the case-mapping
interfaces `SnakeCaseMappersOptions`, `ColumnNameMappers` and
`KnexMappers`. -/
theorem type_contract_includes_four_shape_families :
    declFileConstructs.contains
      ⟨.QueryBuilder, .classShape, false, some .PromiseBuiltin⟩ = true
    ∧ queryBuilderMembers.all (fun m =>
        declFileConstructs.any (fun c =>
          c.name == m.iface && c.kind == .interfaceDecl)) = true
    ∧ declFileConstructs.contains
        ⟨.RelationMappings, .interfaceDecl, false, none⟩ = true
    ∧ RelationMappingsIndexValue = .RelationMapping
    ∧ declFileConstructs.contains
        ⟨.RelationMapping, .interfaceDecl, false, none⟩ = true
    ∧ declFileConstructs.contains
        ⟨.RelationJoin, .interfaceDecl, false, none⟩ = true
    ∧ RelationJoinFields.map MemberSig.name = ["from", "to", "through"]
    ∧ declFileConstructs.contains
        ⟨.RelationThrough, .interfaceDecl, false, none⟩ = true
    ∧ declFileConstructs.contains
        ⟨.ValidationError, .classShape, false, some .ErrorBuiltin⟩ = true
    ∧ declFileConstructs.contains
        ⟨.ErrorHash, .interfaceDecl, false, none⟩ = true
    ∧ declFileConstructs.contains
        ⟨.SnakeCaseMappersOptions, .interfaceDecl, false, none⟩ = true
    ∧ SnakeCaseMappersOptionsFields.map MemberSig.name =
        ["upperCase", "underscoreBeforeDigits"]
    ∧ declFileConstructs.contains
        ⟨.ColumnNameMappers, .interfaceDecl, false, none⟩ = true
    ∧ ColumnNameMappersMembers.map MemberSig.name = ["parse", "format"]
    ∧ declFileConstructs.contains
        ⟨.KnexMappers, .interfaceDecl, false, none⟩ = true
    ∧ KnexMappersMembers.map MemberSig.name =
        ["wrapIdentifier", "postProcessResponse"] := by
  refine ⟨by decide, by decide, by decide, by decide, by decide, by decide,
    ?_, by decide, by decide, by decide, by decide, ?_, by decide, ?_,
    by decide, ?_⟩
  · decide
  · decide
  · decide
  · decide

/-- C6: `QueryBuilder<M, R>` is declared to extend `Promise<R>` (index.d.ts
line 574), so every builder type of the repository's universe is assignable
to the `Promise` of its own `ResultType`, and awaiting it yields that
`ResultType`; the `QueryBuilder` construct itself carries no executable
code, so no execution behavior is defined in this repository. -/
theorem querybuilder_extends_promise_of_result_type :
    parentOf .QueryBuilder = some .PromiseBuiltin
    ∧ (∀ qb : QBTy, qb.assignableToPromiseOf qb.ResultType = true)
    ∧ (∀ qb : QBTy, qb.promisePayload = qb.ResultType)
    ∧ declFileConstructs.find? (fun c => c.name == .QueryBuilder) =
        some ⟨.QueryBuilder, .classShape, false, some .PromiseBuiltin⟩ := by
  refine ⟨by decide, by decide, by decide, by decide⟩

/-- C7, counterexample: an implementation does exist in the repository —
the example file's `CustomQueryBuilder` is a runtime class carrying an
executable method body and extending `QueryBuilder`, an implemented
inheritance hierarchy — so "no implementation exists in it" is false. -/
theorem example_file_implements_inheritance_hierarchy :
    repoDecls.contains
      ⟨.CustomQueryBuilder, .classImpl, true, some .QueryBuilder⟩ = true
    ∧ SourceDecl.extendsParent
        ⟨.CustomQueryBuilder, .classImpl, true, some .QueryBuilder⟩ ≠
        none := by
  constructor
  · decide
  · decide

/-- C7, amended: the declarations file implements no cyclic graphs,
inheritance hierarchies, global state, dynamic dispatch or coroutine
control flow, because no implementation exists in the declarations file
(no construct there is a runtime class, method body or initialized
binding); the example usage file, however, contains a small implementation
forming an inheritance hierarchy (`CustomQueryBuilder` extends
`QueryBuilder`; `BaseModel`, `Animal` and `Person` extend `Model`), whose
extends-graph is acyclic. -/
theorem no_implementation_in_declarations_file :
    declFileConstructs.all (fun c =>
      !c.hasExecutableBody && !(c.kind == .classImpl) &&
      !(c.kind == .methodImpl) && !(c.kind == .constBinding)) = true
    ∧ exampleFileDecls.contains
        ⟨.CustomQueryBuilder, .classImpl, true, some .QueryBuilder⟩ = true
    ∧ exampleFileDecls.contains
        ⟨.BaseModel, .classImpl, false, some .Model⟩ = true
    ∧ exampleFileDecls.contains
        ⟨.Animal, .classImpl, false, some .BaseModel⟩ = true
    ∧ exampleFileDecls.contains
        ⟨.Person, .classImpl, false, some .BaseModel⟩ = true
    ∧ extendsAcyclic = true := by
  refine ⟨by decide, by decide, by decide, by decide, by decide, by decide⟩

/-- C8: `first()` maps a builder type to its `SingleQueryBuilderType`
exactly when the builder is its own `ArrayQueryBuilderType` — which holds
exactly when its result type is the model array type, and coincides with
the `extends` test of the conditional type — and maps it to itself
otherwise; awaiting `first()` on an array query therefore yields a single
model instance rather than an array. -/
theorem first_maps_array_query_to_single :
    ∀ qb : QBTy,
      (qb.extendsTy qb.ArrayQueryBuilderType = true ↔
        qb = qb.ArrayQueryBuilderType)
      ∧ (qb = qb.ArrayQueryBuilderType ↔ qb.res = .arrOf qb.mdl)
      ∧ (qb = qb.ArrayQueryBuilderType → first qb = qb.SingleQueryBuilderType)
      ∧ (qb ≠ qb.ArrayQueryBuilderType → first qb = qb)
      ∧ (qb.res = .arrOf qb.mdl →
          (first qb).promisePayload = .instanceOf qb.mdl) := by
  decide

/-- Witness for C8 at the example's `CustomQueryBuilder<Animal, Animal[]>`:
`first()` yields `CustomQueryBuilder<Animal, Animal>`, whose awaited type
is the single `Animal`. -/
theorem first_maps_array_query_to_single_witness :
    first ⟨.CustomQueryBuilder, .Animal, .arrOf .Animal⟩ =
      QBTy.SingleQueryBuilderType ⟨.CustomQueryBuilder, .Animal, .arrOf .Animal⟩
    ∧ (first ⟨.CustomQueryBuilder, .Animal, .arrOf .Animal⟩).promisePayload =
      .instanceOf .Animal :=
  ⟨(first_maps_array_query_to_single
      ⟨.CustomQueryBuilder, .Animal, .arrOf .Animal⟩).2.2.1 (by decide),
   (first_maps_array_query_to_single
      ⟨.CustomQueryBuilder, .Animal, .arrOf .Animal⟩).2.2.2.2 (by decide)⟩

/-- C9, counterexample: two declared members break the claim.  `castTo`
returns a query-builder type but is not declared with this-polymorphism
(`CastToMethod` has no `this` parameter and returns the argument model's
builder: casting the example's custom `Person` chain to `Model` yields the
plain `QueryBuilder`, losing `someCustomMethod`); and `page`/`range` derive
their return through `PageQueryBuilderType`, which the example's
`CustomQueryBuilder` does not override, so
`Person.query().page(...).someCustomMethod()` fails to type-check: the
chain does not stay within the subclass. -/
theorem castTo_and_page_escape_subclass :
    queryBuilderMembers.contains
      ⟨.castTo, .CastToMethod, false, [.targetBuilder]⟩ = true
    ∧ returnsBuilderTy .targetBuilder = true
    ∧ QBMember.thisPoly ⟨.castTo, .CastToMethod, false, [.targetBuilder]⟩ =
        false
    ∧ castToRet .Model = ⟨.QueryBuilder, .Model, .arrOf .Model⟩
    ∧ (DeriveQBType (query .Person) .Page).cls = .QueryBuilder
    ∧ someCustomMethod (DeriveQBType (query .Person) .Page) = none := by
  refine ⟨by decide, by decide, by decide, by decide, by decide, by decide⟩

/-- C9, amended: every builder-returning instance member of `QueryBuilder`
except `castTo` is declared with receiver polymorphism, and every chain of
methods whose return shapes are the receiver, the `this` type, the
`Array`/`Single`/`Number` derivations (which the example's
`CustomQueryBuilder` overrides) or the two conditional types stays within
the builder subclass, with subclass-specific methods available at every
step; `castTo` and the `Page` derivation (not overridden by the example's
subclass) are the exceptions. -/
theorem builder_chains_preserve_subclass :
    queryBuilderMembers.all (fun m =>
      !(m.rets.any returnsBuilderTy) || m.name == .castTo || m.thisPoly) = true
    ∧ (∀ qb : QBTy, ∀ rs : List RetSpec,
        (∀ r ∈ rs, preservesSubclass r = true) →
        ∀ qb', applyChain qb rs = some qb' → qb'.cls = qb.cls)
    ∧ (∀ qb : QBTy, qb.cls = .CustomQueryBuilder → ∀ rs : List RetSpec,
        (∀ r ∈ rs, preservesSubclass r = true) →
        ∀ qb', applyChain qb rs = some qb' →
          someCustomMethod qb' = some qb') := by
  refine ⟨by decide, ?_, ?_⟩
  · intro qb rs hrs qb' h
    exact applyChain_preserves_cls qb rs hrs qb' h
  · intro qb hcls rs hrs qb' h
    have hc : qb'.cls = qb.cls := applyChain_preserves_cls qb rs hrs qb' h
    rw [someCustomMethod, hc, hcls]
    rfl

/-- Witness for C9's amended chain property at
`Person.query().where(...).first()`: the chain stays a
`CustomQueryBuilder` and `someCustomMethod` remains available. -/
theorem builder_chains_preserve_subclass_witness :
    QBTy.cls ⟨.CustomQueryBuilder, .Person, .instanceOf .Person⟩ =
      (query .Person).cls
    ∧ someCustomMethod ⟨.CustomQueryBuilder, .Person, .instanceOf .Person⟩ =
      some ⟨.CustomQueryBuilder, .Person, .instanceOf .Person⟩ :=
  ⟨builder_chains_preserve_subclass.2.1 (query .Person)
      [.derive .Array, .conditionalFirst] (by decide)
      ⟨.CustomQueryBuilder, .Person, .instanceOf .Person⟩ (by decide),
   builder_chains_preserve_subclass.2.2 (query .Person) (by decide)
      [.derive .Array, .conditionalFirst] (by decide)
      ⟨.CustomQueryBuilder, .Person, .instanceOf .Person⟩ (by decide)⟩

/-- C10: the mutation methods' declared result types follow their
cardinality: `update` and `patch` are typed by `UpdateMethod`, which takes
a `PartialModelObject<M>` and returns `NumberQueryBuilder<QB>` (awaited
result `number`); `del`, `delete` and `deleteById` return
`NumberQueryBuilder<QB>`; `insert` with a single `PartialModelObject<M>`
returns `SingleQueryBuilder<QB>` (awaited result a single `M`) and with an
array of them returns `ArrayQueryBuilder<QB>` (awaited result `M[]`). -/
theorem mutation_method_result_types :
    queryBuilderMembers.contains
      ⟨.update, .UpdateMethod, true, [.derive .Number]⟩ = true
    ∧ queryBuilderMembers.contains
        ⟨.patch, .UpdateMethod, true, [.derive .Number]⟩ = true
    ∧ UpdateMethodParam = .pmObject
    ∧ queryBuilderMembers.contains
        ⟨.del, .DeleteMethod, true, [.derive .Number]⟩ = true
    ∧ queryBuilderMembers.contains
        ⟨.delete, .DeleteMethod, true, [.derive .Number]⟩ = true
    ∧ queryBuilderMembers.contains
        ⟨.deleteById, .DeleteByIdMethod, true, [.derive .Number]⟩ = true
    ∧ queryBuilderMembers.contains
        ⟨.insert, .InsertMethod, true, [.derive .Single, .derive .Array]⟩ =
        true
    ∧ (∀ qb : QBTy,
        (UpdateMethodRet qb).promisePayload = .numberTy
        ∧ (DeleteMethodRet qb).promisePayload = .numberTy
        ∧ (DeleteByIdMethodRet qb).promisePayload = .numberTy
        ∧ InsertMethodRet qb .pmObject = some qb.SingleQueryBuilderType
        ∧ qb.SingleQueryBuilderType.promisePayload = .instanceOf qb.mdl
        ∧ InsertMethodRet qb .pmObjectArr = some qb.ArrayQueryBuilderType
        ∧ qb.ArrayQueryBuilderType.promisePayload = .arrOf qb.mdl) := by
  refine ⟨by decide, by decide, by decide, by decide, by decide, by decide,
    by decide, by decide⟩

end Objection
